import Mathlib

/-!
Shallow embedding of `src/Project 1/STAN48_Ex1.py`: a bank-account
simulation with a `BankAccount` class (deposit / withdraw / transfer /
apply_interest / record) and a `Bank` container (get_account, ...).

Modelling choices:
* Python numbers (floats and ints) are embedded as exact rationals `ℚ`;
  the literal `0.02` becomes `2 / 100`.
* Python methods mutate `self` in place; here each operation returns the
  updated account(s) together with the Python return value (`Option String`:
  `some msg` for the error strings, `none` for Python's implicit `None`).
* `datetime.datetime.now()` is abstracted: each operation takes the
  formatted timestamp string `now` as a parameter and stamps every record
  it appends with it.
* The dynamic `isinstance(target_account, BankAccount)` check is modelled
  by a sum type `PyVal` of "a BankAccount" versus "any other Python value".
-/

/-- One entry of `self.transactions`: the dict appended by
`BankAccount.record` with keys Action, Amount, Balance, Time. -/
structure Transaction where
  action : String
  amount : ℚ
  balance : ℚ
  time : String
deriving Repr, DecidableEq

/-- The mutable state of a `BankAccount` instance. -/
structure Account where
  owner : String
  account_type : String
  balance : ℚ
  annual_interest_rate : ℚ
  transactions : List Transaction
deriving Repr, DecidableEq

/-- Python `str.lower()` on one character (the ASCII case, which covers
every account-type string the program mentions). -/
def lowerChar (c : Char) : Char :=
  if c.isUpper then Char.ofNat (c.toNat + 32) else c

/-- Python `str.lower()`. -/
def pyLower (s : String) : String := ⟨s.data.map lowerChar⟩

/-- `BankAccount.__init__(owner, account_type, balance=0)`:
stores `account_type.lower()`, rate `0.02`, empty transaction list. -/
def mkBankAccount (owner : String) (account_type : String) (balance : ℚ) : Account :=
  { owner := owner
    account_type := pyLower account_type
    balance := balance
    annual_interest_rate := 2 / 100
    transactions := [] }

/-- `BankAccount.record(action_type, amount)`: appends a transaction dict
snapshotting the current (post-operation) balance and the timestamp. -/
def record (self : Account) (action_type : String) (amount : ℚ) (now : String) : Account :=
  { self with transactions :=
      self.transactions ++ [⟨action_type, amount, self.balance, now⟩] }

/-- `BankAccount.__str__`. -/
def strAccount (self : Account) : String :=
  "Bank account of " ++ self.owner ++ " | Account type: " ++ self.account_type
    ++ " | Balance: " ++ toString self.balance ++ "."

/-- `BankAccount.deposit(amount)`. Returns the Python return value and the
updated account. -/
def deposit (self : Account) (amount : ℚ) (now : String) : Option String × Account :=
  if amount ≤ 0 then
    (some "Deposit amount has to be positve number!", self)
  else
    let self := { self with balance := self.balance + amount }
    (none, record self "deposit" amount now)

/-- The f-string `f"Not enough money remaining! Current balance: {self.balance}."`. -/
def insufficientMsg (balance : ℚ) : String :=
  "Not enough money remaining! Current balance: " ++ toString balance ++ "."

/-- `BankAccount.withdraw(amount)`. -/
def withdraw (self : Account) (amount : ℚ) (now : String) : Option String × Account :=
  if amount ≤ 0 then
    (some "Withdraw amount has to be positve number!", self)
  else if self.balance < amount then
    (some (insufficientMsg self.balance), self)
  else
    let self := { self with balance := self.balance - amount }
    (none, record self "withdraw" amount now)

/-- `BankAccount.transfer(target_account, amount)` for the case where the
`isinstance` check has already passed (see `transferDyn`). Python ignores
the return value of `target_account.deposit(amount)`, keeping only its
state effect; the transfer-out label interpolates `str(target_account)`
AFTER the target was credited. -/
def transfer (self target : Account) (amount : ℚ) (now : String) :
    Option String × Account × Account :=
  if amount ≤ 0 then
    (some "Transfer amount has to be positve number!", self, target)
  else if self.balance < amount then
    (some (insufficientMsg self.balance), self, target)
  else
    let target := (deposit target amount now).2
    let target := record target ("transfer from " ++ self.owner) amount now
    let self := { self with balance := self.balance - amount }
    let self := record self ("transfer to " ++ strAccount target) amount now
    (none, self, target)

/-- A Python value handed to `transfer` as `target_account`: either a
`BankAccount` instance or any other value (which fails `isinstance`). -/
inductive PyVal where
  | acct (a : Account)
  | other (s : String)
deriving DecidableEq

/-- `BankAccount.transfer` including the leading
`isinstance(target_account, BankAccount)` check. -/
def transferDyn (self : Account) (target : PyVal) (amount : ℚ) (now : String) :
    Option String × Account × PyVal :=
  match target with
  | .other s => (some "Target account must be a bank account", self, .other s)
  | .acct t =>
      let r := transfer self t amount now
      (r.1, r.2.1, .acct r.2.2)

/-- `BankAccount.apply_interest()`: an if/elif chain on the stored
`account_type` string; note the source tests the string `"morgage_loan"`
(sic), and has no branch for `"checking"` or anything else. -/
def apply_interest (self : Account) : Account :=
  if self.account_type = "savings" then
    { self with balance := self.balance + self.balance * self.annual_interest_rate }
  else if self.account_type = "morgage_loan" then
    { self with balance := self.balance + self.balance * (self.annual_interest_rate * 2) }
  else if self.account_type = "private_loan" then
    { self with balance := self.balance + self.balance * (self.annual_interest_rate * 5) }
  else
    self

/-- The state of a `Bank` instance: the ordered list `self.accounts`.
(The Python `Bank(BankAccount)` inheritance is vestigial: `Bank.__init__`
never calls the parent constructor and only sets `self.accounts`.) -/
structure Bank where
  accounts : List Account
deriving Repr, DecidableEq

/-- `Bank.get_account(owner_name)`: the for-loop returns the first stored
account whose owner equals `owner_name`; if the loop finishes, the `else`
clause returns the string `"Account not found"`. The Python return value
is either an account or that string, hence a sum type. -/
def get_account_list : List Account → String → Account ⊕ String
  | [], _ => Sum.inr "Account not found"
  | acc :: rest, owner_name =>
      if acc.owner = owner_name then Sum.inl acc else get_account_list rest owner_name

/-- `Bank.get_account` on the bank's state. -/
def get_account (self : Bank) (owner_name : String) : Account ⊕ String :=
  get_account_list self.accounts owner_name

/-! ### Helper lemmas shared by several claims -/

lemma apply_interest_owner (A : Account) : (apply_interest A).owner = A.owner := by
  unfold apply_interest; split_ifs <;> rfl

lemma apply_interest_type (A : Account) : (apply_interest A).account_type = A.account_type := by
  unfold apply_interest; split_ifs <;> rfl

lemma apply_interest_rate (A : Account) :
    (apply_interest A).annual_interest_rate = A.annual_interest_rate := by
  unfold apply_interest; split_ifs <;> rfl

lemma apply_interest_txs (A : Account) : (apply_interest A).transactions = A.transactions := by
  unfold apply_interest; split_ifs <;> rfl

/-- On a successful deposit (`0 < a`) the whole post-state. -/
lemma deposit_pos (A : Account) (a : ℚ) (now : String) (h : 0 < a) :
    deposit A a now =
      (none, { A with
                balance := A.balance + a
                transactions := A.transactions ++ [⟨"deposit", a, A.balance + a, now⟩] }) := by
  simp [deposit, record, not_le.2 h]

/-- On a successful transfer (`0 < a ≤ A.balance`) the whole post-state of both
accounts. -/
lemma transfer_ok (A B : Account) (a : ℚ) (now : String) (h1 : 0 < a) (h2 : a ≤ A.balance) :
    transfer A B a now =
      (none,
       { A with
          balance := A.balance - a
          transactions := A.transactions ++
            [⟨"transfer to " ++ strAccount
                { B with
                   balance := B.balance + a
                   transactions := B.transactions ++
                     [⟨"deposit", a, B.balance + a, now⟩,
                      ⟨"transfer from " ++ A.owner, a, B.balance + a, now⟩] },
              a, A.balance - a, now⟩] },
       { B with
          balance := B.balance + a
          transactions := B.transactions ++
            [⟨"deposit", a, B.balance + a, now⟩,
             ⟨"transfer from " ++ A.owner, a, B.balance + a, now⟩] }) := by
  rw [transfer]
  rw [if_neg (not_le.2 h1), if_neg (not_lt.2 h2), deposit_pos B a now h1]
  simp [record]

example : (deposit (mkBankAccount "Alice" "Savings" 100) 50 "t").2.balance = 150 := by
  norm_num [deposit, mkBankAccount, record]

example : (apply_interest (mkBankAccount "A" "savings" 100)).balance = 102 := by
  have h : pyLower "savings" = "savings" := by decide
  simp [apply_interest, mkBankAccount, h]
  norm_num

example : (apply_interest (mkBankAccount "X" "mortgage_loan" 100)).balance = 100 := by
  have h : pyLower "mortgage_loan" = "mortgage_loan" := by decide
  simp [apply_interest, mkBankAccount, h]

example : get_account ⟨[mkBankAccount "A" "checking" 1]⟩ "B" = Sum.inr "Account not found" := by
  simp [get_account, get_account_list, mkBankAccount]

/-! ### Claim theorems -/

/-- Claim C3: for every pair of accounts A (balance `b`) and B (balance `c`)
and every amount `a` with `0 < a ≤ b`, transfer of `a` from A to B leaves A
with balance `b - a` and B with balance `c + a`. -/
theorem C3_transfer_balances (A B : Account) (a : ℚ) (now : String)
    (h1 : 0 < a) (h2 : a ≤ A.balance) :
    ((transfer A B a now).2.1).balance = A.balance - a ∧
    ((transfer A B a now).2.2).balance = B.balance + a := by
  rw [transfer_ok A B a now h1 h2]
  exact ⟨rfl, rfl⟩

/-- Witness for C3 at a concrete input: Alice (balance 10) transfers 3 to
Bob (balance 5). -/
theorem C3_transfer_balances_witness :
    ((transfer (mkBankAccount "Alice" "checking" 10) (mkBankAccount "Bob" "checking" 5)
        3 "t").2.1).balance = (mkBankAccount "Alice" "checking" 10).balance - 3 ∧
    ((transfer (mkBankAccount "Alice" "checking" 10) (mkBankAccount "Bob" "checking" 5)
        3 "t").2.2).balance = (mkBankAccount "Bob" "checking" 5).balance + 3 :=
  C3_transfer_balances (mkBankAccount "Alice" "checking" 10) (mkBankAccount "Bob" "checking" 5)
    3 "t" (by norm_num) (by norm_num [mkBankAccount])

/-- Claim C4: `deposit(a)` with `a ≤ 0` returns an error message string and
leaves the account unchanged; with `a > 0` it sets the balance to `b + a` and
appends exactly one transaction record with action `"deposit"`, amount `a`
and recorded balance `b + a`. -/
theorem C4_deposit_spec (A : Account) (a : ℚ) (now : String) :
    (a ≤ 0 → deposit A a now = (some "Deposit amount has to be positve number!", A)) ∧
    (0 < a → deposit A a now =
      (none, { A with
                balance := A.balance + a
                transactions := A.transactions ++ [⟨"deposit", a, A.balance + a, now⟩] })) := by
  constructor
  · intro h; simp [deposit, h]
  · intro h; exact deposit_pos A a now h

/-- Witness for C4: both branches at concrete inputs (balance 100, deposit
of -5 and of 50). -/
theorem C4_deposit_spec_witness :
    deposit (mkBankAccount "Alice" "savings" 100) (-5) "t" =
      (some "Deposit amount has to be positve number!", mkBankAccount "Alice" "savings" 100) ∧
    deposit (mkBankAccount "Alice" "savings" 100) 50 "t" =
      (none, { mkBankAccount "Alice" "savings" 100 with
                balance := (mkBankAccount "Alice" "savings" 100).balance + 50
                transactions := (mkBankAccount "Alice" "savings" 100).transactions ++
                  [⟨"deposit", 50, (mkBankAccount "Alice" "savings" 100).balance + 50, "t"⟩] }) :=
  ⟨(C4_deposit_spec (mkBankAccount "Alice" "savings" 100) (-5) "t").1 (by norm_num),
   (C4_deposit_spec (mkBankAccount "Alice" "savings" 100) 50 "t").2 (by norm_num)⟩

/-- Claim C5: `withdraw(a)` fails — returning a descriptive message string
and leaving the account unchanged — exactly when `a ≤ 0` or `a > b`;
otherwise it sets the balance to `b - a` and appends exactly one
`"withdraw"` transaction record. -/
theorem C5_withdraw_spec (A : Account) (a : ℚ) (now : String) :
    (a ≤ 0 → withdraw A a now = (some "Withdraw amount has to be positve number!", A)) ∧
    (0 < a → A.balance < a → withdraw A a now = (some (insufficientMsg A.balance), A)) ∧
    (0 < a → a ≤ A.balance → withdraw A a now =
      (none, { A with
                balance := A.balance - a
                transactions := A.transactions ++ [⟨"withdraw", a, A.balance - a, now⟩] })) := by
  refine ⟨fun h => by simp [withdraw, h], fun h1 h2 => ?_, fun h1 h2 => ?_⟩
  · simp [withdraw, not_le.2 h1, h2]
  · simp [withdraw, record, not_le.2 h1, not_lt.2 h2]

/-- Witness for C5: all three branches at concrete inputs (balance 10;
withdrawals of -1, 20 and 3). -/
theorem C5_withdraw_spec_witness :
    withdraw (mkBankAccount "Ann" "checking" 10) (-1) "t" =
      (some "Withdraw amount has to be positve number!", mkBankAccount "Ann" "checking" 10) ∧
    withdraw (mkBankAccount "Ann" "checking" 10) 20 "t" =
      (some (insufficientMsg (mkBankAccount "Ann" "checking" 10).balance),
       mkBankAccount "Ann" "checking" 10) ∧
    withdraw (mkBankAccount "Ann" "checking" 10) 3 "t" =
      (none, { mkBankAccount "Ann" "checking" 10 with
                balance := (mkBankAccount "Ann" "checking" 10).balance - 3
                transactions := (mkBankAccount "Ann" "checking" 10).transactions ++
                  [⟨"withdraw", 3, (mkBankAccount "Ann" "checking" 10).balance - 3, "t"⟩] }) :=
  ⟨(C5_withdraw_spec (mkBankAccount "Ann" "checking" 10) (-1) "t").1 (by norm_num),
   (C5_withdraw_spec (mkBankAccount "Ann" "checking" 10) 20 "t").2.1 (by norm_num)
     (by norm_num [mkBankAccount]),
   (C5_withdraw_spec (mkBankAccount "Ann" "checking" 10) 3 "t").2.2 (by norm_num)
     (by norm_num [mkBankAccount])⟩

/-- Claim C6: `apply_interest()` on a `"savings"` account with balance `b`
and rate `r` sets the balance to `b * (1 + r)`; on a `"checking"` account it
leaves the balance equal to `b`. -/
theorem C6_apply_interest_savings_checking (owner : String) (b r : ℚ)
    (txs : List Transaction) :
    (apply_interest ⟨owner, "savings", b, r, txs⟩).balance = b * (1 + r) ∧
    (apply_interest ⟨owner, "checking", b, r, txs⟩).balance = b := by
  constructor
  · have h : (apply_interest ⟨owner, "savings", b, r, txs⟩).balance = b + b * r := by
      simp [apply_interest]
    rw [h]; ring
  · simp [apply_interest]

/-- Claim C7: `apply_interest()` never appends a transaction record and
leaves owner, account_type, annual_interest_rate and the transaction list
unchanged, whatever the account_type; only the balance may change. -/
theorem C7_apply_interest_frame (A : Account) :
    (apply_interest A).owner = A.owner ∧
    (apply_interest A).account_type = A.account_type ∧
    (apply_interest A).annual_interest_rate = A.annual_interest_rate ∧
    (apply_interest A).transactions = A.transactions :=
  ⟨apply_interest_owner A, apply_interest_type A, apply_interest_rate A,
   apply_interest_txs A⟩

/-- Counterexample for C1 as stated: on a savings account with balance 100,
`apply_interest` changes the balance yet appends no transaction record; and
on a successful transfer the target account gains two records (a `deposit`
record from the credit leg plus the transfer-in record), not one. -/
theorem C1_counterexample :
    (apply_interest (mkBankAccount "S" "savings" 100)).balance ≠
      (mkBankAccount "S" "savings" 100).balance ∧
    (apply_interest (mkBankAccount "S" "savings" 100)).transactions.length =
      (mkBankAccount "S" "savings" 100).transactions.length ∧
    ((transfer (mkBankAccount "A" "checking" 10) (mkBankAccount "B" "checking" 5)
        3 "t").2.2).transactions.length =
      (mkBankAccount "B" "checking" 5).transactions.length + 2 := by
  have hs : pyLower "savings" = "savings" := by decide
  refine ⟨?_, ?_, ?_⟩
  · norm_num [apply_interest, mkBankAccount, hs]
  · simp [apply_interest, mkBankAccount, hs]
  · rw [transfer_ok _ _ _ _ (by norm_num) (by norm_num [mkBankAccount])]
    simp [mkBankAccount]

/-- Claim C1 (amended): a successful transfer appends exactly one
transfer-out record on the sender at the post-operation balance, and exactly
two records on the target — a `deposit` record from the credit leg and one
transfer-in record, both at the target's post-operation balance; `deposit`
and `withdraw` each append exactly one record at the post-operation balance;
`apply_interest` changes the balance without appending any record. -/
theorem C1_one_record_per_mutation (A B : Account) (a : ℚ) (now : String)
    (h1 : 0 < a) (h2 : a ≤ A.balance) :
    (transfer A B a now).2.1.transactions =
      A.transactions ++
        [⟨"transfer to " ++ strAccount (transfer A B a now).2.2, a, A.balance - a, now⟩] ∧
    (transfer A B a now).2.2.transactions =
      B.transactions ++
        [⟨"deposit", a, B.balance + a, now⟩,
         ⟨"transfer from " ++ A.owner, a, B.balance + a, now⟩] ∧
    (deposit A a now).2.transactions =
      A.transactions ++ [⟨"deposit", a, A.balance + a, now⟩] ∧
    (withdraw A a now).2.transactions =
      A.transactions ++ [⟨"withdraw", a, A.balance - a, now⟩] ∧
    (apply_interest A).transactions = A.transactions := by
  refine ⟨?_, ?_, ?_, ?_, apply_interest_txs A⟩
  · rw [transfer_ok A B a now h1 h2]
  · rw [transfer_ok A B a now h1 h2]
  · rw [deposit_pos A a now h1]
  · simp [withdraw, record, not_le.2 h1, not_lt.2 h2]

/-- Witness for the amended C1 at a concrete input: Alice (balance 10)
transfers 3 to Bob (balance 5). -/
theorem C1_one_record_per_mutation_witness :
    (transfer (mkBankAccount "Alice" "c" 10) (mkBankAccount "Bob" "c" 5) 3 "t").2.1.transactions =
      (mkBankAccount "Alice" "c" 10).transactions ++
        [⟨"transfer to " ++ strAccount
            (transfer (mkBankAccount "Alice" "c" 10) (mkBankAccount "Bob" "c" 5) 3 "t").2.2,
          3, (mkBankAccount "Alice" "c" 10).balance - 3, "t"⟩] ∧
    (transfer (mkBankAccount "Alice" "c" 10) (mkBankAccount "Bob" "c" 5) 3 "t").2.2.transactions =
      (mkBankAccount "Bob" "c" 5).transactions ++
        [⟨"deposit", 3, (mkBankAccount "Bob" "c" 5).balance + 3, "t"⟩,
         ⟨"transfer from " ++ (mkBankAccount "Alice" "c" 10).owner, 3,
          (mkBankAccount "Bob" "c" 5).balance + 3, "t"⟩] ∧
    (deposit (mkBankAccount "Alice" "c" 10) 3 "t").2.transactions =
      (mkBankAccount "Alice" "c" 10).transactions ++
        [⟨"deposit", 3, (mkBankAccount "Alice" "c" 10).balance + 3, "t"⟩] ∧
    (withdraw (mkBankAccount "Alice" "c" 10) 3 "t").2.transactions =
      (mkBankAccount "Alice" "c" 10).transactions ++
        [⟨"withdraw", 3, (mkBankAccount "Alice" "c" 10).balance - 3, "t"⟩] ∧
    (apply_interest (mkBankAccount "Alice" "c" 10)).transactions =
      (mkBankAccount "Alice" "c" 10).transactions :=
  C1_one_record_per_mutation (mkBankAccount "Alice" "c" 10) (mkBankAccount "Bob" "c" 5)
    3 "t" (by norm_num) (by norm_num [mkBankAccount])

/-- Claim C2 (code bug): an account constructed with the type spelled
`"mortgage_loan"` — as the spec names it — gets NO interest (the source
tests the misspelled string `"morgage_loan"`), while the misspelled name
receives the claimed `balance * rate * 2`; `"private_loan"` receives
`balance * rate * 5` as claimed. With balance 100 and the constructor's rate
0.02: 100, 104 and 110. -/
theorem C2_morgage_loan_divergence :
    (apply_interest (mkBankAccount "X" "mortgage_loan" 100)).balance = 100 ∧
    (apply_interest (mkBankAccount "X" "morgage_loan" 100)).balance = 104 ∧
    (apply_interest (mkBankAccount "Y" "private_loan" 100)).balance = 110 := by
  refine ⟨?_, ?_, ?_⟩
  · have h : pyLower "mortgage_loan" = "mortgage_loan" := by decide
    simp [apply_interest, mkBankAccount, h]
  · have h : pyLower "morgage_loan" = "morgage_loan" := by decide
    simp [apply_interest, mkBankAccount, h]
    norm_num
  · have h : pyLower "private_loan" = "private_loan" := by decide
    simp [apply_interest, mkBankAccount, h]
    norm_num

/-- Claim C8: `get_account` returns the first stored account whose owner
equals the queried name exactly (first match in storage order, so duplicate
owners resolve to the earliest), and the string sentinel
`"Account not found"` — not an account — when no owner matches; this is
precisely `List.find?` followed by the sentinel on `none`. -/
theorem C8_get_account_first_match (bank : Bank) (owner_name : String) :
    get_account bank owner_name =
      (bank.accounts.find? (fun acc => acc.owner == owner_name)).elim
        (Sum.inr "Account not found") Sum.inl := by
  rw [get_account]
  induction bank.accounts with
  | nil => rfl
  | cons acc rest ih =>
      rw [get_account_list]
      by_cases h : acc.owner = owner_name
      · rw [if_pos h, List.find?_cons_of_pos _ (by simp [h])]
        rfl
      · rw [if_neg h, List.find?_cons_of_neg _ (by simp [h]), ih]

/-- Claim C9: a transfer rejected because the target is not a BankAccount,
the amount is non-positive, or the amount exceeds the sender's balance,
returns an error message string and leaves both the sender and the target
completely unchanged. -/
theorem C9_failed_transfer_unchanged (self : Account) (target : PyVal) (a : ℚ) (now : String)
    (h : (∀ t, target ≠ PyVal.acct t) ∨ a ≤ 0 ∨ self.balance < a) :
    ((transferDyn self target a now).1).isSome = true ∧
    (transferDyn self target a now).2.1 = self ∧
    (transferDyn self target a now).2.2 = target := by
  rcases target with t | s
  · by_cases ha : a ≤ 0
    · simp [transferDyn, transfer, ha]
    · have hb : self.balance < a := by
        rcases h with h | h | h
        · exact absurd rfl (h t)
        · exact absurd h ha
        · exact h
      simp [transferDyn, transfer, ha, hb]
  · simp [transferDyn]

/-- Witness for C9 at a concrete input: transferring 5 to a non-account
value fails and changes nothing. -/
theorem C9_failed_transfer_unchanged_witness :
    ((transferDyn (mkBankAccount "A" "checking" 10) (PyVal.other "42") 5 "t").1).isSome = true ∧
    (transferDyn (mkBankAccount "A" "checking" 10) (PyVal.other "42") 5 "t").2.1 =
      mkBankAccount "A" "checking" 10 ∧
    (transferDyn (mkBankAccount "A" "checking" 10) (PyVal.other "42") 5 "t").2.2 =
      PyVal.other "42" :=
  C9_failed_transfer_unchanged (mkBankAccount "A" "checking" 10) (PyVal.other "42") 5 "t"
    (Or.inl fun _ h => PyVal.noConfusion h)

/-- Claim C10: construction stores any account-type string lowercased,
without validation; `apply_interest` on a stored type outside
`{"savings", "morgage_loan", "private_loan"}` is a silent no-op: the whole
account state is unchanged and no error is signalled. -/
theorem C10_no_type_validation (owner account_type : String) (bal : ℚ) (A : Account)
    (h1 : A.account_type ≠ "savings") (h2 : A.account_type ≠ "morgage_loan")
    (h3 : A.account_type ≠ "private_loan") :
    (mkBankAccount owner account_type bal).account_type = pyLower account_type ∧
    apply_interest A = A :=
  ⟨rfl, by simp [apply_interest, h1, h2, h3]⟩

/-- Witness for C10 at a concrete input: the stored type
`"mortgage_loan"` (from constructing with `"Mortgage_Loan"`) is outside the
recognised set, so interest is a no-op on that account. -/
theorem C10_no_type_validation_witness :
    (mkBankAccount "X" "Mortgage_Loan" 7).account_type = pyLower "Mortgage_Loan" ∧
    apply_interest (mkBankAccount "X" "Mortgage_Loan" 7) = mkBankAccount "X" "Mortgage_Loan" 7 :=
  C10_no_type_validation "X" "Mortgage_Loan" 7 (mkBankAccount "X" "Mortgage_Loan" 7)
    (by decide) (by decide) (by decide)
